import Mathlib

/-!
Verification of the simple-monopoly simulation (`src/banco.py`).

The Python source is shallowly embedded below.  Python integers become
`Int` (board positions, which are only ever in `0..20`, become `Nat`);
Python lists become `List`; `None` becomes `Option.none`.  The property
field `dono` holds, in the source, a reference to a `Jogador` object; here
it is the index of that player in the game's player list, which is
faithful because the source only ever compares `dono` against a player
that is mutated in place (reference semantics).  Randomness (`randint`,
`getrandbits`) is modelled by an explicit stream `rng : Nat → Nat × Bool`
consulted once per executed turn: the first component is the die value
`randint(1,6)` produces, the second the coin `getrandbits(1)` produces.
Fallible operations (list indexing) return `Option`; `none` is a Python
exception.
-/

/-- A value returned by `Comportamento.decide_compra`.  In Python the
method returns either a `bool` (`True`/`False` literals) or an `int`
(`getrandbits(1)` returns `0` or `1`, not a `bool`), so the embedding
keeps the two apart. -/
inductive PyRet where
  | pyBool : Bool → PyRet
  | pyInt : Int → PyRet
deriving DecidableEq, Repr

/-- Python truthiness of a `PyRet` value, as used by `if compra:` in
`Jogador.executa_jogada` (line 88): a bool is its own truth value, an int
is truthy iff nonzero. -/
def pyTruthy : PyRet → Bool
  | .pyBool b => b
  | .pyInt n => n != 0

/-- Resolution of a Python list index over a list of length `len`:
negative indices count from the end, out-of-range indexing raises
(`none`). -/
def pyIdx (len : Nat) (i : Int) : Option Nat :=
  if i < 0 then
    if 0 ≤ i + len then some (i + len).toNat else none
  else
    if i < len then some i.toNat else none

/-- Python `l[i]` (line 83 of the source). -/
def pyGet {α : Type} (l : List α) (i : Int) : Option α :=
  (pyIdx l.length i).bind fun j => l.get? j

/-- Python `l[i] = a` on an index at which `pyGet` succeeds; the identity
when the index is out of range (the source never reaches that case,
because it only writes through an element it just read). -/
def pySet {α : Type} (l : List α) (i : Int) (a : α) : List α :=
  match pyIdx l.length i with
  | some j => l.set j a
  | none => l

/-- The four behaviour traits (`Comportamento`, lines 10–34): all default
to `False` in the source dataclass. -/
structure Comportamento where
  impulsivo : Bool := false
  exigente : Bool := false
  cauteloso : Bool := false
  aleatorio : Bool := false
deriving DecidableEq, Repr

/-- `Comportamento.decide_compra` (lines 36–56).  `bit` is the value of
`getrandbits(1)` drawn in the `aleatorio` branch (as a `Bool`; the source
returns it as the int `0` or `1`, hence `pyInt`). -/
def Comportamento.decide_compra (self : Comportamento)
    (custo_propriedade valor_aluguel saldo : Int) (bit : Bool) : PyRet :=
  if self.impulsivo then .pyBool true
  else if self.exigente ∧ valor_aluguel ≥ 50 then .pyBool true
  else if self.cauteloso ∧ saldo - custo_propriedade ≥ 80 then .pyBool true
  else if self.aleatorio then .pyInt (if bit then 1 else 0)
  else .pyBool false

/-- `Jogador` (lines 59–66). -/
structure Jogador where
  nome : String
  saldo : Int
  comportamento : Comportamento
  posicao_tabuleiro : Nat := 0
  falido : Bool := false
deriving DecidableEq, Repr

/-- The movement step of `Jogador.executa_jogada` (lines 77–81): advance
by the die value, wrapping past position 20 with a bonus of 100. -/
def Jogador.avanca (self : Jogador) (valor_dado : Nat) : Jogador :=
  if self.posicao_tabuleiro + valor_dado > 20 then
    { self with posicao_tabuleiro := self.posicao_tabuleiro + valor_dado - 20,
                saldo := self.saldo + 100 }
  else
    { self with posicao_tabuleiro := self.posicao_tabuleiro + valor_dado }

/-- The bankruptcy check of `Jogador.executa_jogada` (lines 94–95). -/
def Jogador.verifica_falencia (self : Jogador) : Jogador :=
  if self.saldo < 0 then { self with falido := true } else self

/-- `Jogador.retorna_comportamento` (lines 97–106): falls through to
Python's implicit `None` when no trait is set. -/
def Jogador.retorna_comportamento (self : Jogador) : Option String :=
  if self.comportamento.impulsivo then some "impulsivo"
  else if self.comportamento.exigente then some "exigente"
  else if self.comportamento.cauteloso then some "cauteloso"
  else if self.comportamento.aleatorio then some "aleatorio"
  else none

/-- `Propriedade` (lines 109–116); `dono` is the owning player's index in
the game's player list (`none` = Python `None`). -/
structure Propriedade where
  nome : String
  custo_venda : Int
  valor_aluguel : Int
  dono : Option Nat := none
  posicao_tabuleiro : Option Nat := none
deriving DecidableEq, Repr

/-- `Tabuleiro` (lines 119–122). -/
structure Tabuleiro where
  propriedades : List Propriedade
deriving DecidableEq, Repr

/-- `Tabuleiro.remove_jogador` (lines 124–128). -/
def Tabuleiro.remove_jogador (self : Tabuleiro) (jogador : Nat) : Tabuleiro :=
  { propriedades :=
      self.propriedades.map fun propriedade =>
        if propriedade.dono = some jogador then { propriedade with dono := none }
        else propriedade }

/-- `Jogador.executa_jogada` (lines 73–95).  `i` is the acting player's
index (the identity of `self` for ownership), `valor_dado` the die value
of `joga_dado` (`randint(1,6)`), `bit` the coin consumed if the strategy
is `aleatorio`.  Returns the updated player and board, or `none` on an
out-of-range board access (a Python `IndexError`). -/
def Jogador.executa_jogada (self : Jogador) (i : Nat) (tabuleiro : Tabuleiro)
    (valor_dado : Nat) (bit : Bool) : Option (Jogador × Tabuleiro) :=
  let self1 := self.avanca valor_dado
  let idx : Int := (self1.posicao_tabuleiro : Int) - 1
  match pyGet tabuleiro.propriedades idx with
  | none => none
  | some propriedade =>
    if propriedade.dono = none then
      let compra := self1.comportamento.decide_compra
        propriedade.custo_venda propriedade.valor_aluguel self1.saldo bit
      if pyTruthy compra then
        some (Jogador.verifica_falencia
                { self1 with saldo := self1.saldo - propriedade.custo_venda },
              { propriedades :=
                  pySet tabuleiro.propriedades idx { propriedade with dono := some i } })
      else
        some (self1.verifica_falencia, tabuleiro)
    else
      some (Jogador.verifica_falencia
              { self1 with saldo := self1.saldo - propriedade.valor_aluguel },
            tabuleiro)

/-- `Jogo` (lines 131–137). -/
structure Jogo where
  jogadores : List Jogador
  tabuleiro : Tabuleiro
  rodada : Nat := 0
  jogadores_falidos : Nat := 0
deriving DecidableEq, Repr

/-- The inner `for jogador in self.jogadores` loop of `Jogo.play`
(lines 142–152), processing players from index `j` on, with `n` the
number of list entries left to visit (`n = length - j` at every call the
source can make).  Bankrupt players are skipped; a player who goes
bankrupt is removed from the board's ownership and counted; once more
than 2 players are bankrupt the loop breaks.  `t` indexes the random
stream and advances once per executed turn. -/
def roda_jogadores (rng : Nat → Nat × Bool) :
    Nat → Nat → List Jogador → Tabuleiro → Nat → Nat →
    Option (List Jogador × Tabuleiro × Nat × Nat)
  | 0, _, js, tab, falidos, t => some (js, tab, falidos, t)
  | n + 1, j, js, tab, falidos, t =>
    match js.get? j with
    | none => some (js, tab, falidos, t)
    | some jogador =>
      if jogador.falido then
        roda_jogadores rng n (j + 1) js tab falidos t
      else
        match jogador.executa_jogada j tab (rng t).1 (rng t).2 with
        | none => none
        | some (j2, tab2) =>
          let js2 := js.set j j2
          let tab3 := if j2.falido then tab2.remove_jogador j else tab2
          let falidos2 := if j2.falido then falidos + 1 else falidos
          if falidos2 > 2 then some (js2, tab3, falidos2, t + 1)
          else roda_jogadores rng n (j + 1) js2 tab3 falidos2 (t + 1)

/-- One body execution of the `while` loop of `Jogo.play` (lines
141–154): run the inner player loop, then `self.rodada += 1`. -/
def Jogo.roda (g : Jogo) (rng : Nat → Nat × Bool) (t : Nat) :
    Option (Jogo × Nat) :=
  match roda_jogadores rng g.jogadores.length 0 g.jogadores g.tabuleiro
      g.jogadores_falidos t with
  | none => none
  | some (js, tab, falidos, t2) =>
    some ({ jogadores := js, tabuleiro := tab, rodada := g.rodada + 1,
            jogadores_falidos := falidos }, t2)

/-- The `while self.rodada < 1000 and self.jogadores_falidos < 3` loop of
`Jogo.play` (lines 141–154). -/
def Jogo.play_loop (g : Jogo) (rng : Nat → Nat × Bool) (t : Nat) :
    Option (Jogo × Nat) :=
  if h : g.rodada < 1000 ∧ g.jogadores_falidos < 3 then
    match hr : g.roda rng t with
    | none => none
    | some (g2, t2) => g2.play_loop rng t2
  else some (g, t)
termination_by 1000 - g.rodada
decreasing_by
  simp only [Jogo.roda] at hr
  rcases hro : roda_jogadores rng g.jogadores.length 0 g.jogadores g.tabuleiro
      g.jogadores_falidos t with _ | ⟨js, tab, falidos, t3⟩ <;> rw [hro] at hr
  · exact absurd hr (by simp)
  · simp only [Option.some.injEq, Prod.mk.injEq] at hr
    obtain ⟨h1, h2⟩ := hr
    subst h1
    simp only []
    omega

/-- The winner-selection loop of `Jogo.play` (lines 158–163): `v` is the
running `vencedor` (initially Python `None`); a later player replaces it
only on strictly greater `saldo`. -/
def escolhe_vencedor : List Jogador → Option Jogador → Option Jogador
  | [], v => v
  | jogador :: resto, v =>
    match v with
    | none => escolhe_vencedor resto (some jogador)
    | some atual =>
      if jogador.saldo > atual.saldo then escolhe_vencedor resto (some jogador)
      else escolhe_vencedor resto (some atual)

/-- The result record `{"timeout": time_out, "turnos": self.rodada,
comportamento_vencedor: 1}` built on line 167 (the winner's label is a
dict key mapped to `1`; the label is `none` when the winner has no trait
set). -/
structure Resultado where
  timeout : Nat
  turnos : Nat
  comportamento_vencedor : Option String
  contagem_vencedor : Nat
deriving DecidableEq, Repr

/-- `Jogo.play` (lines 139–170): run the loop, compute the timeout flag,
pick the winner and build the result record.  `none` when a turn raised
(board misconfigured) or when the player list is empty (the source would
then call `retorna_comportamento` on `None`). -/
def Jogo.play (g : Jogo) (rng : Nat → Nat × Bool) : Option Resultado :=
  match g.play_loop rng 0 with
  | none => none
  | some (g2, _) =>
    let time_out : Nat := if g2.rodada = 1000 ∧ g2.jogadores_falidos < 3 then 1 else 0
    match escolhe_vencedor g2.jogadores none with
    | none => none
    | some vencedor =>
      some { timeout := time_out, turnos := g2.rodada,
             comportamento_vencedor := vencedor.retorna_comportamento,
             contagem_vencedor := 1 }

/-- No property of the board is owned by player `k`. -/
def sem_dono (tab : Tabuleiro) (k : Nat) : Prop :=
  ∀ p ∈ tab.propriedades, p.dono ≠ some k

instance (tab : Tabuleiro) (k : Nat) : Decidable (sem_dono tab k) := by
  unfold sem_dono; infer_instance

/-! ### Helper lemmas -/

lemma avanca_falido (self : Jogador) (v : Nat) :
    (self.avanca v).falido = self.falido := by
  unfold Jogador.avanca; split_ifs <;> rfl

lemma avanca_comportamento (self : Jogador) (v : Nat) :
    (self.avanca v).comportamento = self.comportamento := by
  unfold Jogador.avanca; split_ifs <;> rfl

lemma verifica_falencia_saldo (j : Jogador) :
    (j.verifica_falencia).saldo = j.saldo := by
  unfold Jogador.verifica_falencia; split_ifs <;> rfl

lemma verifica_falencia_falido_iff (j : Jogador) (h : j.falido = false) :
    (j.verifica_falencia).falido = true ↔ (j.verifica_falencia).saldo < 0 := by
  unfold Jogador.verifica_falencia; split_ifs <;> simp_all

lemma escolhe_vencedor_some_spec (js : List Jogador) (acc : Jogador) :
    ∃ r : Jogador, escolhe_vencedor js (some acc) = some r
      ∧ acc.saldo ≤ r.saldo
      ∧ (∀ (m : Nat) (y : Jogador), js.get? m = some y → y.saldo ≤ r.saldo)
      ∧ ((r = acc ∧ ∀ (m : Nat) (y : Jogador), js.get? m = some y → y.saldo ≤ acc.saldo)
         ∨ ∃ k : Nat, js.get? k = some r ∧ acc.saldo < r.saldo
             ∧ ∀ (m : Nat) (y : Jogador), m < k → js.get? m = some y → y.saldo < r.saldo) := by
  induction js generalizing acc with
  | nil =>
    refine ⟨acc, rfl, le_refl _, ?_, Or.inl ⟨rfl, ?_⟩⟩ <;> intro m y hm <;> simp at hm
  | cons j resto ih =>
    by_cases hj : j.saldo > acc.saldo
    · obtain ⟨r, hr, hjr, hall, hcase⟩ := ih j
      refine ⟨r, by simpa [escolhe_vencedor, hj] using hr, by omega, ?_, ?_⟩
      · intro m y hm
        rcases m with _ | m
        · rw [List.get?_cons_zero] at hm
          obtain rfl : j = y := by simpa using hm
          exact hjr
        · rw [List.get?_cons_succ] at hm
          exact hall m y hm
      · rcases hcase with ⟨rfl, _⟩ | ⟨k, hk, hlt, hpre⟩
        · exact Or.inr ⟨0, by simp, hj, fun m y hm0 _ => absurd hm0 (Nat.not_lt_zero m)⟩
        · refine Or.inr ⟨k + 1, by simpa using hk, by omega, ?_⟩
          intro m y hm0 hget
          rcases m with _ | m
          · rw [List.get?_cons_zero] at hget
            obtain rfl : j = y := by simpa using hget
            exact hlt
          · rw [List.get?_cons_succ] at hget
            exact hpre m y (by omega) hget
    · obtain ⟨r, hr, har, hall, hcase⟩ := ih acc
      refine ⟨r, by simpa [escolhe_vencedor, hj] using hr, har, ?_, ?_⟩
      · intro m y hm
        rcases m with _ | m
        · rw [List.get?_cons_zero] at hm
          obtain rfl : j = y := by simpa using hm
          omega
        · rw [List.get?_cons_succ] at hm
          exact hall m y hm
      · rcases hcase with ⟨rfl, hrest⟩ | ⟨k, hk, hlt, hpre⟩
        · refine Or.inl ⟨rfl, ?_⟩
          intro m y hm
          rcases m with _ | m
          · rw [List.get?_cons_zero] at hm
            obtain rfl : j = y := by simpa using hm
            omega
          · rw [List.get?_cons_succ] at hm
            exact hrest m y hm
        · refine Or.inr ⟨k + 1, by simpa using hk, hlt, ?_⟩
          intro m y hm0 hget
          rcases m with _ | m
          · rw [List.get?_cons_zero] at hget
            obtain rfl : j = y := by simpa using hget
            omega
          · rw [List.get?_cons_succ] at hget
            exact hpre m y (by omega) hget

/-! ### Claims about `decide_compra` -/

/-- C3: `Comportamento.decide_compra` evaluates the four traits in fixed
priority order with first match winning: `impulsivo` always buys
regardless of everything else; failing that, `exigente` with rent ≥ 50
buys; failing that, `cauteloso` with a post-purchase reserve of at least
80 buys; failing that, `aleatorio` returns the coin (as the int 0 or 1);
with no rule firing the result is `False`.  The final conjunct gives the
resulting truth value in closed form. -/
theorem decide_compra_prioridade (c : Comportamento) (p r s : Int) (bit : Bool) :
    (c.impulsivo = true → c.decide_compra p r s bit = .pyBool true)
    ∧ (c.impulsivo = false → c.exigente = true → 50 ≤ r →
        c.decide_compra p r s bit = .pyBool true)
    ∧ (c.impulsivo = false → (c.exigente = false ∨ r < 50) → c.cauteloso = true →
        80 ≤ s - p → c.decide_compra p r s bit = .pyBool true)
    ∧ (c.impulsivo = false → (c.exigente = false ∨ r < 50) →
        (c.cauteloso = false ∨ s - p < 80) → c.aleatorio = true →
        c.decide_compra p r s bit = .pyInt (if bit then 1 else 0))
    ∧ (c.impulsivo = false → (c.exigente = false ∨ r < 50) →
        (c.cauteloso = false ∨ s - p < 80) → c.aleatorio = false →
        c.decide_compra p r s bit = .pyBool false)
    ∧ pyTruthy (c.decide_compra p r s bit) =
        (c.impulsivo || (c.exigente && decide (50 ≤ r)) ||
         (c.cauteloso && decide (80 ≤ s - p)) || (c.aleatorio && bit)) := by
  unfold Comportamento.decide_compra
  refine ⟨?_, ?_, ?_, ?_, ?_, ?_⟩ <;>
    · intros
      split_ifs <;> (try cases bit) <;> simp_all [pyTruthy] <;> omega

/-- C9: the `aleatorio` branch of `decide_compra` does not return a bool:
it returns the value of `getrandbits(1)`, which is the Python int 0 or 1,
although the method's docstring promises a bool. -/
theorem decide_compra_aleatoria_devolve_int :
    Comportamento.decide_compra { aleatorio := true } 60 10 300 true = .pyInt 1
    ∧ Comportamento.decide_compra { aleatorio := true } 60 10 300 false = .pyInt 0
    ∧ ∀ b : Bool,
        Comportamento.decide_compra { aleatorio := true } 60 10 300 true ≠ .pyBool b := by
  refine ⟨rfl, rfl, ?_⟩
  decide

/-! ### Claims about `executa_jogada` -/

/-- C4: a turn of a non-bankrupt player marks the player bankrupt exactly
when the balance after the economic step is strictly negative; a balance
of exactly 0 never sets the flag. -/
theorem executa_jogada_falencia_iff (self : Jogador) (i : Nat) (tab : Tabuleiro)
    (valor_dado : Nat) (bit : Bool) (j2 : Jogador) (tab2 : Tabuleiro)
    (hfal : self.falido = false)
    (he : self.executa_jogada i tab valor_dado bit = some (j2, tab2)) :
    j2.falido = true ↔ j2.saldo < 0 := by
  have hfa : (self.avanca valor_dado).falido = false := by
    rw [avanca_falido]; exact hfal
  simp only [Jogador.executa_jogada] at he
  rcases hget : pyGet tab.propriedades
      (((self.avanca valor_dado).posicao_tabuleiro : Int) - 1) with _ | prop <;>
    rw [hget] at he <;> dsimp only at he
  · exact absurd he (by simp)
  · split_ifs at he <;>
      simp only [Option.some.injEq, Prod.mk.injEq] at he <;>
      obtain ⟨h1, h2⟩ := he <;>
      subst h1 <;>
      exact verifica_falencia_falido_iff _ (by simp [hfa])

/-- C5: when the landed-on property has an owner (any owner, the acting
player included), the rent is debited from the acting player
unconditionally, and neither the board nor any property field changes:
the source returns the board exactly as it was. -/
theorem executa_jogada_aluguel (self : Jogador) (i d : Nat) (tab : Tabuleiro)
    (valor_dado : Nat) (bit : Bool) (prop : Propriedade)
    (hp : pyGet tab.propriedades
        (((self.avanca valor_dado).posicao_tabuleiro : Int) - 1) = some prop)
    (hd : prop.dono = some d) :
    self.executa_jogada i tab valor_dado bit =
      some (Jogador.verifica_falencia
              { self.avanca valor_dado with
                saldo := (self.avanca valor_dado).saldo - prop.valor_aluguel },
            tab) := by
  simp only [Jogador.executa_jogada, hp]
  simp [hd]

/-- C6: for a player at position `p ≤ 20` rolling `r ∈ [1,6]`, the move
wraps exactly when `p + r > 20`; wrapping lands on `p + r - 20` and
credits exactly 100 (before the purchase/rent decision, which
`executa_jogada` takes on the moved player); otherwise the player lands
on `p + r` with the balance untouched.  Either way the new position is in
`1..20`. -/
theorem avanca_especificacao (self : Jogador) (valor_dado : Nat)
    (hpos : self.posicao_tabuleiro ≤ 20)
    (h1 : 1 ≤ valor_dado) (h6 : valor_dado ≤ 6) :
    (self.posicao_tabuleiro + valor_dado > 20 →
        (self.avanca valor_dado).posicao_tabuleiro =
          self.posicao_tabuleiro + valor_dado - 20
        ∧ (self.avanca valor_dado).saldo = self.saldo + 100)
    ∧ (self.posicao_tabuleiro + valor_dado ≤ 20 →
        (self.avanca valor_dado).posicao_tabuleiro =
          self.posicao_tabuleiro + valor_dado
        ∧ (self.avanca valor_dado).saldo = self.saldo)
    ∧ 1 ≤ (self.avanca valor_dado).posicao_tabuleiro
    ∧ (self.avanca valor_dado).posicao_tabuleiro ≤ 20 := by
  unfold Jogador.avanca
  split_ifs with h <;> simp_all <;> omega

/-- C10: a purchase approved by the cautious rule alone (`cauteloso` set,
`impulsivo` and `exigente` clear, post-purchase reserve at least 80)
leaves the player with at least 80 after the price debit, so it can never
produce a negative balance nor set the bankruptcy flag in that turn. -/
theorem compra_cautelosa_mantem_reserva (self : Jogador) (i : Nat) (tab : Tabuleiro)
    (valor_dado : Nat) (bit : Bool) (prop : Propriedade) (j2 : Jogador) (tab2 : Tabuleiro)
    (himp : self.comportamento.impulsivo = false)
    (hexi : self.comportamento.exigente = false)
    (hcau : self.comportamento.cauteloso = true)
    (hfal : self.falido = false)
    (hp : pyGet tab.propriedades
        (((self.avanca valor_dado).posicao_tabuleiro : Int) - 1) = some prop)
    (hdono : prop.dono = none)
    (hres : 80 ≤ (self.avanca valor_dado).saldo - prop.custo_venda)
    (he : self.executa_jogada i tab valor_dado bit = some (j2, tab2)) :
    j2.saldo = (self.avanca valor_dado).saldo - prop.custo_venda
    ∧ 80 ≤ j2.saldo ∧ j2.falido = false := by
  have hdec : (self.avanca valor_dado).comportamento.decide_compra
      prop.custo_venda prop.valor_aluguel (self.avanca valor_dado).saldo bit =
      .pyBool true := by
    rw [avanca_comportamento]
    unfold Comportamento.decide_compra
    simp [himp, hexi, hcau, hres]
  simp only [Jogador.executa_jogada, hp] at he
  rw [hdec] at he
  simp only [hdono, if_true, pyTruthy, if_pos rfl] at he
  simp only [Option.some.injEq, Prod.mk.injEq] at he
  obtain ⟨h1, h2⟩ := he
  subst h1
  unfold Jogador.verifica_falencia
  split_ifs with hneg
  · simp at hneg; omega
  · refine ⟨rfl, by simpa using hres, ?_⟩
    simpa [avanca_falido] using hfal

/-- Witness for C4: a player with balance 0 paying rent 5 ends at -5 and
is marked bankrupt; the theorem's iff instantiated there. -/
theorem executa_jogada_falencia_iff_witness :
    (({ nome := "J", saldo := -5, comportamento := {}, posicao_tabuleiro := 1,
        falido := true } : Jogador).falido = true
      ↔ ({ nome := "J", saldo := -5, comportamento := {}, posicao_tabuleiro := 1,
           falido := true } : Jogador).saldo < 0) :=
  executa_jogada_falencia_iff { nome := "J", saldo := 0, comportamento := {} } 0
    ⟨[{ nome := "P", custo_venda := 10, valor_aluguel := 5, dono := some 0 }]⟩ 1 true
    _ _ rfl rfl

/-- Witness for C5: landing on a property owned by player 0, the rent of
5 is debited and the board returned unchanged. -/
theorem executa_jogada_aluguel_witness :
    ({ nome := "J", saldo := 0, comportamento := {} } : Jogador).executa_jogada 0
        ⟨[{ nome := "P", custo_venda := 10, valor_aluguel := 5, dono := some 0 }]⟩ 1 true =
      some (Jogador.verifica_falencia
              { ({ nome := "J", saldo := 0, comportamento := {} } : Jogador).avanca 1 with
                saldo := (({ nome := "J", saldo := 0,
                             comportamento := {} } : Jogador).avanca 1).saldo - 5 },
            ⟨[{ nome := "P", custo_venda := 10, valor_aluguel := 5, dono := some 0 }]⟩) :=
  executa_jogada_aluguel { nome := "J", saldo := 0, comportamento := {} } 0 0
    ⟨[{ nome := "P", custo_venda := 10, valor_aluguel := 5, dono := some 0 }]⟩ 1 true
    { nome := "P", custo_venda := 10, valor_aluguel := 5, dono := some 0 } rfl rfl

/-- Witness for C6: the move specification instantiated at position 16
with a roll of 5 (a wrapping move): the wrap case applies and the new
position stays within the board. -/
theorem avanca_especificacao_witness :
    ((16 + 5 > 20 →
        (({ nome := "J", saldo := 0, comportamento := {}, posicao_tabuleiro := 16,
            falido := false } : Jogador).avanca 5).posicao_tabuleiro = 16 + 5 - 20
        ∧ (({ nome := "J", saldo := 0, comportamento := {}, posicao_tabuleiro := 16,
              falido := false } : Jogador).avanca 5).saldo = 0 + 100)
      ∧ 1 ≤ (({ nome := "J", saldo := 0, comportamento := {}, posicao_tabuleiro := 16,
                falido := false } : Jogador).avanca 5).posicao_tabuleiro
      ∧ (({ nome := "J", saldo := 0, comportamento := {}, posicao_tabuleiro := 16,
            falido := false } : Jogador).avanca 5).posicao_tabuleiro ≤ 20) :=
  ⟨(avanca_especificacao
      { nome := "J", saldo := 0, comportamento := {}, posicao_tabuleiro := 16,
        falido := false } 5 (by decide) (by decide) (by decide)).1,
   (avanca_especificacao
      { nome := "J", saldo := 0, comportamento := {}, posicao_tabuleiro := 16,
        falido := false } 5 (by decide) (by decide) (by decide)).2.2⟩

/-- Witness for C10: a cautious player with balance 300 buying a
property of price 10 keeps 290 ≥ 80 and is not bankrupted. -/
theorem compra_cautelosa_mantem_reserva_witness :
    (({ nome := "C", saldo := 290, comportamento := { cauteloso := true },
        posicao_tabuleiro := 1, falido := false } : Jogador).saldo =
        (({ nome := "C", saldo := 300,
            comportamento := { cauteloso := true } } : Jogador).avanca 1).saldo - 10
      ∧ 80 ≤ ({ nome := "C", saldo := 290, comportamento := { cauteloso := true },
                posicao_tabuleiro := 1, falido := false } : Jogador).saldo
      ∧ ({ nome := "C", saldo := 290, comportamento := { cauteloso := true },
           posicao_tabuleiro := 1, falido := false } : Jogador).falido = false) :=
  compra_cautelosa_mantem_reserva
    { nome := "C", saldo := 300, comportamento := { cauteloso := true } } 2
    ⟨[{ nome := "P", custo_venda := 10, valor_aluguel := 5 }]⟩ 1 false
    { nome := "P", custo_venda := 10, valor_aluguel := 5 }
    { nome := "C", saldo := 290, comportamento := { cauteloso := true },
      posicao_tabuleiro := 1, falido := false }
    ⟨[{ nome := "P", custo_venda := 10, valor_aluguel := 5, dono := some 2 }]⟩
    rfl rfl rfl rfl rfl rfl (by decide) rfl

/-! ### Claims about the winner selection -/

/-- C1: the winner returned by the selection loop of `Jogo.play` is the
first player, in list order, whose balance no player exceeds: a strictly
highest balance wins, ties keep the earlier-indexed player (every player
strictly before the winner has a strictly smaller balance, and nobody has
a larger one). -/
theorem vencedor_primeiro_maximo (js : List Jogador) (hne : js ≠ []) :
    ∃ (k : Nat) (x : Jogador), js.get? k = some x
      ∧ escolhe_vencedor js none = some x
      ∧ (∀ (m : Nat) (y : Jogador), js.get? m = some y → y.saldo ≤ x.saldo)
      ∧ ∀ (m : Nat) (y : Jogador), m < k → js.get? m = some y → y.saldo < x.saldo := by
  rcases js with _ | ⟨j, resto⟩
  · exact absurd rfl hne
  obtain ⟨r, hr, hjr, hall, hcase⟩ := escolhe_vencedor_some_spec resto j
  have heq : escolhe_vencedor (j :: resto) none = some r := by
    simpa [escolhe_vencedor] using hr
  rcases hcase with ⟨rfl, hrest⟩ | ⟨k, hk, hlt, hpre⟩
  · refine ⟨0, r, by simp, heq, ?_, fun m y hm0 _ => absurd hm0 (Nat.not_lt_zero m)⟩
    intro m y hm
    rcases m with _ | m
    · rw [List.get?_cons_zero] at hm
      obtain rfl : r = y := by simpa using hm
      exact le_refl _
    · rw [List.get?_cons_succ] at hm
      exact hrest m y hm
  · refine ⟨k + 1, r, by simpa using hk, heq, ?_, ?_⟩
    · intro m y hm
      rcases m with _ | m
      · rw [List.get?_cons_zero] at hm
        obtain rfl : j = y := by simpa using hm
        omega
      · rw [List.get?_cons_succ] at hm
        exact hall m y hm
    · intro m y hm0 hget
      rcases m with _ | m
      · rw [List.get?_cons_zero] at hget
        obtain rfl : j = y := by simpa using hget
        exact hlt
      · rw [List.get?_cons_succ] at hget
        exact hpre m y (by omega) hget

/-- Witness for C1: four players all with balance 300 (the spec's tie
scenario); the first-seen-wins characterization instantiated there. -/
theorem vencedor_primeiro_maximo_witness :
    ∃ (k : Nat) (x : Jogador),
      ([⟨"A", 300, {}, 0, false⟩, ⟨"B", 300, {}, 0, false⟩,
        ⟨"C", 300, {}, 0, false⟩, ⟨"D", 300, {}, 0, false⟩] : List Jogador).get? k = some x
      ∧ escolhe_vencedor
          ([⟨"A", 300, {}, 0, false⟩, ⟨"B", 300, {}, 0, false⟩,
            ⟨"C", 300, {}, 0, false⟩, ⟨"D", 300, {}, 0, false⟩] : List Jogador) none = some x
      ∧ (∀ (m : Nat) (y : Jogador),
          ([⟨"A", 300, {}, 0, false⟩, ⟨"B", 300, {}, 0, false⟩,
            ⟨"C", 300, {}, 0, false⟩, ⟨"D", 300, {}, 0, false⟩] : List Jogador).get? m = some y →
          y.saldo ≤ x.saldo)
      ∧ ∀ (m : Nat) (y : Jogador), m < k →
          ([⟨"A", 300, {}, 0, false⟩, ⟨"B", 300, {}, 0, false⟩,
            ⟨"C", 300, {}, 0, false⟩, ⟨"D", 300, {}, 0, false⟩] : List Jogador).get? m = some y →
          y.saldo < x.saldo :=
  vencedor_primeiro_maximo
    ([⟨"A", 300, {}, 0, false⟩, ⟨"B", 300, {}, 0, false⟩,
      ⟨"C", 300, {}, 0, false⟩, ⟨"D", 300, {}, 0, false⟩] : List Jogador) (by simp)

/-! ### Claims about the game loop -/

lemma roda_incrementa_rodada (g : Jogo) (rng : Nat → Nat × Bool) (t : Nat)
    (g3 : Jogo) (t3 : Nat) (hr : g.roda rng t = some (g3, t3)) :
    g3.rodada = g.rodada + 1 := by
  unfold Jogo.roda at hr
  rcases hro : roda_jogadores rng g.jogadores.length 0 g.jogadores g.tabuleiro
      g.jogadores_falidos t with _ | ⟨js, tab, falidos, t4⟩ <;> rw [hro] at hr
  · exact absurd hr (by simp)
  · simp only [Option.some.injEq, Prod.mk.injEq] at hr
    obtain ⟨h1, _⟩ := hr
    subst h1
    rfl

lemma play_loop_post (g : Jogo) (rng : Nat → Nat × Bool) (t : Nat)
    (h : g.rodada ≤ 1000) (g2 : Jogo) (t2 : Nat)
    (hpl : g.play_loop rng t = some (g2, t2)) :
    g2.rodada ≤ 1000 ∧ ¬(g2.rodada < 1000 ∧ g2.jogadores_falidos < 3) := by
  induction g, rng, t using Jogo.play_loop.induct with
  | case1 a b c d e =>
    rw [Jogo.play_loop, dif_pos d, e] at hpl
    exact absurd hpl (by simp)
  | case2 a b c d g3 t3 e ih =>
    have h3 := roda_incrementa_rodada a b c g3 t3 e
    rw [Jogo.play_loop, dif_pos d, e] at hpl
    exact ih (by omega) hpl
  | case3 a b c d =>
    rw [Jogo.play_loop, dif_neg d] at hpl
    simp only [Option.some.injEq, Prod.mk.injEq] at hpl
    obtain ⟨rfl, rfl⟩ := hpl
    exact ⟨h, d⟩

/-- C2: starting from any state with at most 1000 rounds played, the main
loop of `Jogo.play` ends with at most 1000 rounds on the counter, in a
state in which the loop guard has just failed (`rodada < 1000` and
`jogadores_falidos < 3` cannot both still hold); each executed round body
increments `rodada` by exactly 1; and with 3 or more bankrupt players the
loop exits at once, leaving the state untouched. -/
theorem play_termina_no_maximo_1000 (g : Jogo) (rng : Nat → Nat × Bool) (t : Nat)
    (h : g.rodada ≤ 1000) :
    (∀ (g3 : Jogo) (t3 : Nat), g.roda rng t = some (g3, t3) → g3.rodada = g.rodada + 1)
    ∧ (∀ (g2 : Jogo) (t2 : Nat), g.play_loop rng t = some (g2, t2) →
        g2.rodada ≤ 1000 ∧ ¬(g2.rodada < 1000 ∧ g2.jogadores_falidos < 3))
    ∧ (3 ≤ g.jogadores_falidos → g.play_loop rng t = some (g, t)) :=
  ⟨fun g3 t3 hr => roda_incrementa_rodada g rng t g3 t3 hr,
   fun g2 t2 hpl => play_loop_post g rng t h g2 t2 hpl,
   fun h3 => by rw [Jogo.play_loop, dif_neg (by omega)]⟩

/-- Witness for C2: the loop bound instantiated at a game that already
has 1000 rounds played and 3 bankrupt players. -/
theorem play_termina_no_maximo_1000_witness :
    (∀ (g3 : Jogo) (t3 : Nat),
        (⟨[], ⟨[]⟩, 1000, 3⟩ : Jogo).roda (fun _ => (1, true)) 0 = some (g3, t3) →
        g3.rodada = (⟨[], ⟨[]⟩, 1000, 3⟩ : Jogo).rodada + 1)
    ∧ (∀ (g2 : Jogo) (t2 : Nat),
        (⟨[], ⟨[]⟩, 1000, 3⟩ : Jogo).play_loop (fun _ => (1, true)) 0 = some (g2, t2) →
        g2.rodada ≤ 1000 ∧ ¬(g2.rodada < 1000 ∧ g2.jogadores_falidos < 3))
    ∧ (3 ≤ (⟨[], ⟨[]⟩, 1000, 3⟩ : Jogo).jogadores_falidos →
        (⟨[], ⟨[]⟩, 1000, 3⟩ : Jogo).play_loop (fun _ => (1, true)) 0 =
          some (⟨[], ⟨[]⟩, 1000, 3⟩, 0)) :=
  play_termina_no_maximo_1000 ⟨[], ⟨[]⟩, 1000, 3⟩ (fun _ => (1, true)) 0 (by decide)

lemma mem_pySet {α : Type} (l : List α) (i : Int) (a x : α) (hx : x ∈ pySet l i a) :
    x ∈ l ∨ x = a := by
  unfold pySet at hx
  rcases h : pyIdx l.length i with _ | j <;> rw [h] at hx
  · exact Or.inl hx
  · exact List.mem_or_eq_of_mem_set hx

lemma remove_jogador_sem_dono (tab : Tabuleiro) (k : Nat) :
    sem_dono (tab.remove_jogador k) k := by
  intro p hp
  simp only [Tabuleiro.remove_jogador, List.mem_map] at hp
  obtain ⟨q, hq, rfl⟩ := hp
  split_ifs with h <;> simp_all

lemma remove_jogador_preserva_sem_dono (tab : Tabuleiro) (m k : Nat)
    (hs : sem_dono tab k) : sem_dono (tab.remove_jogador m) k := by
  intro p hp
  simp only [Tabuleiro.remove_jogador, List.mem_map] at hp
  obtain ⟨q, hq, rfl⟩ := hp
  split_ifs with h
  · simp
  · exact hs q hq

lemma executa_jogada_preserva_sem_dono (self : Jogador) (i : Nat) (tab : Tabuleiro)
    (v : Nat) (bit : Bool) (k : Nat) (hik : i ≠ k) (hs : sem_dono tab k)
    (j2 : Jogador) (tab2 : Tabuleiro)
    (he : self.executa_jogada i tab v bit = some (j2, tab2)) : sem_dono tab2 k := by
  simp only [Jogador.executa_jogada] at he
  rcases hget : pyGet tab.propriedades (((self.avanca v).posicao_tabuleiro : Int) - 1)
      with _ | prop <;> rw [hget] at he <;> dsimp only at he
  · exact absurd he (by simp)
  · split_ifs at he <;>
      simp only [Option.some.injEq, Prod.mk.injEq] at he <;> obtain ⟨h1, h2⟩ := he <;>
      subst h2
    · intro p hp
      rcases mem_pySet _ _ _ _ hp with hmem | rfl
      · exact hs p hmem
      · simp only [ne_eq, Option.some.injEq]
        exact fun hh => hik hh
    · exact hs
    · exact hs

lemma roda_jogadores_preserva (rng : Nat → Nat × Bool) (n : Nat) :
    ∀ (j : Nat) (js : List Jogador) (tab : Tabuleiro) (falidos t : Nat)
      (k : Nat) (p : Jogador), js.get? k = some p → p.falido = true → sem_dono tab k →
      ∀ (js2 : List Jogador) (tab2 : Tabuleiro) (f2 t2 : Nat),
        roda_jogadores rng n j js tab falidos t = some (js2, tab2, f2, t2) →
        js2.get? k = some p ∧ sem_dono tab2 k := by
  induction n with
  | zero =>
    intro j js tab falidos t k p hk hf hs js2 tab2 f2 t2 hr
    simp only [roda_jogadores, Option.some.injEq, Prod.mk.injEq] at hr
    obtain ⟨rfl, rfl, rfl, rfl⟩ := hr
    exact ⟨hk, hs⟩
  | succ n ih =>
    intro j js tab falidos t k p hk hf hs js2 tab2 f2 t2 hr
    rw [roda_jogadores] at hr
    rcases hgj : js.get? j with _ | jog <;> rw [hgj] at hr <;> dsimp only at hr
    · simp only [Option.some.injEq, Prod.mk.injEq] at hr
      obtain ⟨rfl, rfl, rfl, rfl⟩ := hr
      exact ⟨hk, hs⟩
    · by_cases hfj : jog.falido = true
      · rw [if_pos hfj] at hr
        exact ih (j + 1) js tab falidos t k p hk hf hs js2 tab2 f2 t2 hr
      · rw [if_neg hfj] at hr
        have hjk : j ≠ k := by
          intro hh
          subst hh
          rw [hk] at hgj
          obtain rfl : p = jog := by simpa using hgj
          exact hfj hf
        rcases hex : jog.executa_jogada j tab (rng t).1 (rng t).2
            with _ | ⟨j2, tab2'⟩ <;> rw [hex] at hr <;> dsimp only at hr
        · exact absurd hr (by simp)
        · have hsd2 : sem_dono tab2' k :=
            executa_jogada_preserva_sem_dono jog j tab _ _ k hjk hs j2 tab2' hex
          have hk2 : (js.set j j2).get? k = some p := by
            rw [List.get?_set_ne _ _ hjk]
            exact hk
          have key : ∀ (tab3 : Tabuleiro) (fal2 : Nat), sem_dono tab3 k →
              (if fal2 > 2 then some (js.set j j2, tab3, fal2, t + 1)
               else roda_jogadores rng n (j + 1) (js.set j j2) tab3 fal2 (t + 1)) =
                some (js2, tab2, f2, t2) →
              js2.get? k = some p ∧ sem_dono tab2 k := by
            intro tab3 fal2 hsd3 hr2
            split_ifs at hr2 with hbreak
            · simp only [Option.some.injEq, Prod.mk.injEq] at hr2
              obtain ⟨rfl, rfl, rfl, rfl⟩ := hr2
              exact ⟨hk2, hsd3⟩
            · exact ih (j + 1) (js.set j j2) tab3 fal2 (t + 1) k p hk2 hf hsd3
                js2 tab2 f2 t2 hr2
          by_cases hjf : j2.falido = true
          · simp only [if_pos hjf] at hr
            exact key _ _ (remove_jogador_preserva_sem_dono tab2' j k hsd2) hr
          · simp only [if_neg hjf] at hr
            exact key _ _ hsd2 hr

lemma play_loop_preserva (g : Jogo) (rng : Nat → Nat × Bool) (t : Nat)
    (k : Nat) (p : Jogador) (hk : g.jogadores.get? k = some p) (hf : p.falido = true)
    (hs : sem_dono g.tabuleiro k) (g2 : Jogo) (t2 : Nat)
    (hpl : g.play_loop rng t = some (g2, t2)) :
    g2.jogadores.get? k = some p ∧ sem_dono g2.tabuleiro k := by
  induction g, rng, t using Jogo.play_loop.induct with
  | case1 a b c d e =>
    rw [Jogo.play_loop, dif_pos d, e] at hpl
    exact absurd hpl (by simp)
  | case2 a b c d g3 t3 e ih =>
    rw [Jogo.play_loop, dif_pos d, e] at hpl
    unfold Jogo.roda at e
    rcases hro : roda_jogadores b a.jogadores.length 0 a.jogadores a.tabuleiro
        a.jogadores_falidos c with _ | ⟨js, tab, falidos, t4⟩ <;> rw [hro] at e
    · exact absurd e (by simp)
    · simp only [Option.some.injEq, Prod.mk.injEq] at e
      obtain ⟨h1, _⟩ := e
      subst h1
      obtain ⟨hk3, hs3⟩ := roda_jogadores_preserva b a.jogadores.length 0 a.jogadores
        a.tabuleiro a.jogadores_falidos c k p hk hf hs js tab falidos t4 hro
      exact ih hk3 hs3 hpl
  | case3 a b c d =>
    rw [Jogo.play_loop, dif_neg d] at hpl
    simp only [Option.some.injEq, Prod.mk.injEq] at hpl
    obtain ⟨rfl, rfl⟩ := hpl
    exact ⟨hk, hs⟩

/-- C7: in the main loop of `Jogo.play`, a player recorded as bankrupt
(with, as the game establishes on processing the bankruptcy via
`remove_jogador`, no board property owned — the first conjunct states
that clearing) stays bankrupt and entirely untouched (so `executa_jogada`
is never again applied to it: its whole state, position included, is the
same in the final state), and no property ever names it as owner again. -/
theorem falido_permanece_sem_propriedades (g : Jogo) (rng : Nat → Nat × Bool)
    (t k : Nat) (p : Jogador) (g2 : Jogo) (t2 : Nat)
    (hk : g.jogadores.get? k = some p) (hf : p.falido = true)
    (hs : sem_dono g.tabuleiro k)
    (hpl : g.play_loop rng t = some (g2, t2)) :
    (∀ (tab : Tabuleiro) (m : Nat), sem_dono (tab.remove_jogador m) m)
    ∧ g2.jogadores.get? k = some p ∧ sem_dono g2.tabuleiro k :=
  ⟨fun tab m => remove_jogador_sem_dono tab m,
   (play_loop_preserva g rng t k p hk hf hs g2 t2 hpl).1,
   (play_loop_preserva g rng t k p hk hf hs g2 t2 hpl).2⟩

/-- Witness for C7: a two-player game (player 1 bankrupt, owning
nothing) run from round 999; after the remaining round player 1 is
untouched and still owns nothing. -/
theorem falido_permanece_sem_propriedades_witness :
    (∀ (tab : Tabuleiro) (m : Nat), sem_dono (tab.remove_jogador m) m)
    ∧ (⟨[⟨"A", 300, {}, 1, false⟩, ⟨"B", -10, {}, 0, true⟩],
        ⟨[⟨"P", 10, 5, none, none⟩]⟩, 1000, 1⟩ : Jogo).jogadores.get? 1 =
        some ⟨"B", -10, {}, 0, true⟩
    ∧ sem_dono (⟨[⟨"A", 300, {}, 1, false⟩, ⟨"B", -10, {}, 0, true⟩],
        ⟨[⟨"P", 10, 5, none, none⟩]⟩, 1000, 1⟩ : Jogo).tabuleiro 1 :=
  falido_permanece_sem_propriedades
    ⟨[⟨"A", 300, {}, 0, false⟩, ⟨"B", -10, {}, 0, true⟩],
      ⟨[⟨"P", 10, 5, none, none⟩]⟩, 999, 1⟩ (fun _ => (1, true)) 0 1
    ⟨"B", -10, {}, 0, true⟩
    ⟨[⟨"A", 300, {}, 1, false⟩, ⟨"B", -10, {}, 0, true⟩],
      ⟨[⟨"P", 10, 5, none, none⟩]⟩, 1000, 1⟩ 1
    rfl rfl (by decide)
    (by
      rw [Jogo.play_loop, dif_pos (by decide)]
      rw [show (⟨[⟨"A", 300, {}, 0, false⟩, ⟨"B", -10, {}, 0, true⟩],
          ⟨[⟨"P", 10, 5, none, none⟩]⟩, 999, 1⟩ : Jogo).roda (fun _ => (1, true)) 0 =
        some (⟨[⟨"A", 300, {}, 1, false⟩, ⟨"B", -10, {}, 0, true⟩],
          ⟨[⟨"P", 10, 5, none, none⟩]⟩, 1000, 1⟩, 1) from rfl]
      dsimp only
      rw [Jogo.play_loop, dif_neg (by decide)])

/-- C8: after the loop of `Jogo.play` exits in state `g2`, the result
record carries the timeout flag `1` exactly when `rodada` equals 1000
with fewer than 3 bankrupt players (`0` in every other configuration),
the final round count under `"turnos"`, and the winner's strategy label
mapped to `1`, the winner being the one `escolhe_vencedor` picks. -/
theorem play_monta_resultado (g : Jogo) (rng : Nat → Nat × Bool)
    (g2 : Jogo) (t2 : Nat) (res : Resultado)
    (hl : g.play_loop rng 0 = some (g2, t2))
    (hp : g.play rng = some res) :
    (res.timeout = if g2.rodada = 1000 ∧ g2.jogadores_falidos < 3 then 1 else 0)
    ∧ (res.timeout = 1 ↔ (g2.rodada = 1000 ∧ g2.jogadores_falidos < 3))
    ∧ res.turnos = g2.rodada
    ∧ res.contagem_vencedor = 1
    ∧ ∃ vencedor : Jogador, escolhe_vencedor g2.jogadores none = some vencedor
        ∧ res.comportamento_vencedor = vencedor.retorna_comportamento := by
  unfold Jogo.play at hp
  rw [hl] at hp
  dsimp only at hp
  rcases hv : escolhe_vencedor g2.jogadores none with _ | v <;> rw [hv] at hp
  · exact absurd hp (by simp)
  · simp only [Option.some.injEq] at hp
    subst hp
    refine ⟨rfl, ?_, rfl, rfl, v, rfl, rfl⟩
    split_ifs with hc <;> simp [hc]

/-- Witness for C8: a one-player game already at round 1000 with no
bankruptcies; its result is a timeout with the impulsive winner's label.
-/
theorem play_monta_resultado_witness :
    (({ timeout := 1, turnos := 1000, comportamento_vencedor := some "impulsivo",
        contagem_vencedor := 1 } : Resultado).timeout =
        if (⟨[⟨"V", 300, ⟨true, false, false, false⟩, 0, false⟩], ⟨[]⟩, 1000,
              0⟩ : Jogo).rodada = 1000
          ∧ (⟨[⟨"V", 300, ⟨true, false, false, false⟩, 0, false⟩], ⟨[]⟩, 1000,
              0⟩ : Jogo).jogadores_falidos < 3 then 1 else 0)
    ∧ (({ timeout := 1, turnos := 1000, comportamento_vencedor := some "impulsivo",
          contagem_vencedor := 1 } : Resultado).timeout = 1 ↔
        ((⟨[⟨"V", 300, ⟨true, false, false, false⟩, 0, false⟩], ⟨[]⟩, 1000,
            0⟩ : Jogo).rodada = 1000
          ∧ (⟨[⟨"V", 300, ⟨true, false, false, false⟩, 0, false⟩], ⟨[]⟩, 1000,
              0⟩ : Jogo).jogadores_falidos < 3))
    ∧ ({ timeout := 1, turnos := 1000, comportamento_vencedor := some "impulsivo",
         contagem_vencedor := 1 } : Resultado).turnos =
        (⟨[⟨"V", 300, ⟨true, false, false, false⟩, 0, false⟩], ⟨[]⟩, 1000,
          0⟩ : Jogo).rodada
    ∧ ({ timeout := 1, turnos := 1000, comportamento_vencedor := some "impulsivo",
         contagem_vencedor := 1 } : Resultado).contagem_vencedor = 1
    ∧ ∃ vencedor : Jogador,
        escolhe_vencedor (⟨[⟨"V", 300, ⟨true, false, false, false⟩, 0, false⟩], ⟨[]⟩,
            1000, 0⟩ : Jogo).jogadores none = some vencedor
        ∧ ({ timeout := 1, turnos := 1000, comportamento_vencedor := some "impulsivo",
             contagem_vencedor := 1 } : Resultado).comportamento_vencedor =
            vencedor.retorna_comportamento :=
  play_monta_resultado
    ⟨[⟨"V", 300, ⟨true, false, false, false⟩, 0, false⟩], ⟨[]⟩, 1000, 0⟩
    (fun _ => (1, true))
    ⟨[⟨"V", 300, ⟨true, false, false, false⟩, 0, false⟩], ⟨[]⟩, 1000, 0⟩ 0
    { timeout := 1, turnos := 1000, comportamento_vencedor := some "impulsivo",
      contagem_vencedor := 1 }
    (by rw [Jogo.play_loop, dif_neg (by decide)])
    (by
      unfold Jogo.play
      rw [Jogo.play_loop, dif_neg (by decide)]
      dsimp only
      rfl)
